import Mathlib

/-!
# Verification of the AI Dental Receptionist backend

Shallow embedding of `src/main.py` and `src/schemas.py` (a FastAPI service over a
MongoDB document store) and proofs of the specification claims about it.

Modelling conventions:
* A MongoDB collection is a list of documents; the store-generated `_id` is a `Nat`
  handed out by a counter (`DB.nextId`).  `find_one` is `List.find?` (first match in
  natural order), `update_one` updates the first matching document.
* ISO-8601 time strings are kept as strings; MongoDB `$lt`/`$gt` on strings is
  lexicographic byte order, modelled by `String` `<` (lexicographic on characters).
* `datetime.utcnow()` is an abstract clock value passed as a `Nat` parameter.
* Python truthiness of an optional string (`if status:`) is `truthy`: present and
  non-empty.
* HTTP errors (`HTTPException(status_code=...)`) are `Except.error` carrying the
  numeric status code.  Every state-changing handler returns the resulting store
  state alongside the response, so "nothing was persisted" is an equality of states.
* The store is assumed connected (`db` is not `None` in the Python source); the
  spec treats store availability as a boundary condition.
-/

namespace Dental

/-- Python `str.lower` (character-wise; agrees with Python on ASCII, which is all
the fixed tables use). -/
def lowerStr (s : String) : String := String.mk (s.data.map Char.toLower)

/-- Python `str.upper` (character-wise; agrees with Python on ASCII). -/
def upperStr (s : String) : String := String.mk (s.data.map Char.toUpper)

/-- `listPref pat s`: `pat` is a prefix of `s` (character lists). -/
def listPref : List Char → List Char → Bool
  | [], _ => true
  | _ :: _, [] => false
  | p :: ps, c :: cs => p == c && listPref ps cs

/-- `listSub pat s`: `pat` occurs as a contiguous substring of `s`
(Python `pat in s`). -/
def listSub : List Char → List Char → Bool
  | pat, [] => listPref pat []
  | pat, c :: cs => listPref pat (c :: cs) || listSub pat cs

/-- Python `needle in hay` on strings. -/
def strContains (hay needle : String) : Bool := listSub needle.data hay.data

/-- Python truthiness of an `Optional[str]`: present and non-empty. -/
def truthy : Option String → Bool
  | none => false
  | some s => s != ""

/-! ## Data model (src/schemas.py) -/

/-- `Appointment` (src/schemas.py lines 19-25): the request payload.
`provider` is `Optional[str]`; `status` defaults to `"scheduled"` at the
Pydantic layer, so the payload always carries a concrete status string. -/
structure Appointment where
  patient_id : String
  reason : String
  start_time : String
  end_time : String
  provider : Option String
  status : String
deriving DecidableEq

/-- A stored appointment document: the payload fields plus the generated `_id`
and the `updated_at` stamp written by PATCH/DELETE (absent at creation). -/
structure AppDoc where
  id : Nat
  patient_id : String
  reason : String
  start_time : String
  end_time : String
  provider : Option String
  status : String
  updated_at : Option Nat
deriving DecidableEq

/-- The `appointment` collection plus the store's id counter. -/
structure DB where
  appointments : List AppDoc
  nextId : Nat
deriving DecidableEq

/-! ## Appointment endpoints (src/main.py lines 88-141) -/

/-- The MongoDB filter of `create_appointment` (src/main.py lines 92-98):
same provider (null matches null literally), status in
`{scheduled, rescheduled}`, and half-open interval overlap
(`existing.start_time < payload.end_time` and
`existing.end_time > payload.start_time`, both as string comparisons). -/
def overlapFilter (payload : Appointment) (a : AppDoc) : Bool :=
  (a.provider == payload.provider &&
    (a.status == "scheduled" || a.status == "rescheduled")) &&
  (decide (a.start_time.data < payload.end_time.data) &&
    decide (payload.start_time.data < a.end_time.data))

/-- The document inserted for a payload.
Modelled from the spec: `create_document` lives in `database.py`, which is not
under `src/`; per the spec's Record Store Adapter (§2, §6), creation persists the
payload verbatim and returns a store-generated identifier. -/
def insertDoc (payload : Appointment) (id : Nat) : AppDoc :=
  { id := id
    patient_id := payload.patient_id
    reason := payload.reason
    start_time := payload.start_time
    end_time := payload.end_time
    provider := payload.provider
    status := payload.status
    updated_at := none }

/-- `POST /appointments` (src/main.py lines 88-103): if `find_one` with
`overlapFilter` hits, fail 409 and persist nothing; otherwise insert the payload
and return the persisted document (re-read by its generated `_id`). -/
def create_appointment (db : DB) (payload : Appointment) :
    Except Nat AppDoc × DB :=
  match db.appointments.find? (overlapFilter payload) with
  | some _ => (.error 409, db)
  | none =>
      let doc := insertDoc payload db.nextId
      (.ok doc, ⟨db.appointments ++ [doc], db.nextId + 1⟩)

/-- `find_one({"_id": ObjectId(id)})`: first stored document with this id. -/
def findApp (l : List AppDoc) (id : Nat) : Option AppDoc :=
  l.find? (fun a => a.id == id)

/-- Mongo `update_one`: rewrite the first document matching the id with `f`;
the returned flag is `matched_count == 1`. -/
def updateFirst (f : AppDoc → AppDoc) (id : Nat) : List AppDoc → List AppDoc × Bool
  | [] => ([], false)
  | a :: rest =>
      if a.id == id then (f a :: rest, true)
      else
        let r := updateFirst f id rest
        (a :: r.1, r.2)

/-- The `$set` document of `update_appointment` (src/main.py lines 123-129):
each query parameter is written only when truthy (Python `if status:` etc.), and
`updated_at` is always stamped. -/
def setFields (status start_time end_time : Option String) (now : Nat)
    (a : AppDoc) : AppDoc :=
  { a with
    status := if truthy status then status.getD a.status else a.status
    start_time := if truthy start_time then start_time.getD a.start_time else a.start_time
    end_time := if truthy end_time then end_time.getD a.end_time else a.end_time
    updated_at := some now }

/-- `PATCH /appointments/{id}` (src/main.py lines 120-133): 400 when the `$set`
document is empty (all three parameters falsy), before the store is touched;
otherwise `update_one`, 404 when nothing matched, else re-read and return the
updated document (`find_one` may in principle return null, hence `Option`). -/
def update_appointment (db : DB) (appointment_id : Nat)
    (status start_time end_time : Option String) (now : Nat) :
    Except Nat (Option AppDoc) × DB :=
  if truthy status || truthy start_time || truthy end_time then
    let r := updateFirst (setFields status start_time end_time now) appointment_id
      db.appointments
    if r.2 then (.ok (findApp r.1 appointment_id), ⟨r.1, db.nextId⟩)
    else (.error 404, ⟨r.1, db.nextId⟩)
  else (.error 400, db)

/-- The `$set` document of `cancel_appointment` (src/main.py line 138). -/
def cancelSet (now : Nat) (a : AppDoc) : AppDoc :=
  { a with status := "cancelled", updated_at := some now }

/-- `DELETE /appointments/{id}` (src/main.py lines 135-141): `update_one`
setting `status := "cancelled"` and stamping `updated_at`; 404 when nothing
matched, else `{"ok": true}`. -/
def cancel_appointment (db : DB) (appointment_id : Nat) (now : Nat) :
    Except Nat Bool × DB :=
  let r := updateFirst (cancelSet now) appointment_id db.appointments
  if r.2 then (.ok true, ⟨r.1, db.nextId⟩)
  else (.error 404, ⟨r.1, db.nextId⟩)

/-! ## Patient search (src/main.py lines 151-162) -/

/-- A stored patient document (src/schemas.py lines 10-17 plus generated id). -/
structure PatientDoc where
  id : Nat
  first_name : String
  last_name : String
  email : Option String
  phone : Option String
  date_of_birth : Option String
  address : Option String
  notes : Option String
deriving DecidableEq

/-- `reHere pat s`: the regex `pat` matches a prefix of `s`.  This models the
PCRE fragment MongoDB `$regex` receives from `list_patients`, restricted to
patterns made of literal characters and the `.` wildcard (the fragment in which
every character except `.` matches only itself and `.` matches any character). -/
def reHere : List Char → List Char → Bool
  | [], _ => true
  | _ :: _, [] => false
  | p :: ps, c :: cs => (p == '.' || p == c) && reHere ps cs

/-- `reFind pat s`: the regex `pat` matches somewhere inside `s`
(unanchored search, as Mongo `$regex` performs). -/
def reFind : List Char → List Char → Bool
  | pat, [] => reHere pat []
  | pat, c :: cs => reHere pat (c :: cs) || reFind pat cs

/-- Mongo `{"$regex": q, "$options": "i"}` applied to a string field: the
case-insensitive unanchored regex search, modelled by lower-casing both sides. -/
def mongoRegexCI (q s : String) : Bool :=
  reFind (lowerStr q).data (lowerStr s).data

/-- `mongoRegexCI` lifted to an optional field: a null/missing field never
matches a Mongo `$regex` condition. -/
def optRegexCI (q : String) : Option String → Bool
  | none => false
  | some s => mongoRegexCI q s

/-- The `$or` filter of `list_patients` (src/main.py lines 155-160): `q` as a
case-insensitive regex against first_name, last_name, email, phone. -/
def patientMatches (q : String) (p : PatientDoc) : Bool :=
  mongoRegexCI q p.first_name || mongoRegexCI q p.last_name ||
  optRegexCI q p.email || optRegexCI q p.phone

/-- `GET /patients` (src/main.py lines 151-162): when `q` is truthy, filter by
`patientMatches`, else no filter; return up to `limit` documents (the handler
default for `limit` is 50).
Modelled from the spec for the store call: `get_documents` lives in
`database.py`, not under `src/`; per the spec's Record Store Adapter (§2) it
returns the documents satisfying the filter, capped at `limit`. -/
def list_patients (patients : List PatientDoc) (q : Option String) (limit : Nat) :
    List PatientDoc :=
  if truthy q then (patients.filter (patientMatches (q.getD ""))).take limit
  else patients.take limit

/-- Case-insensitive substring containment, written from the spec's words
("contains `q` as a case-insensitive substring"), for comparison with the
regex-based filter the code actually runs. -/
def containsCI (hay needle : String) : Bool :=
  listSub (lowerStr needle).data (lowerStr hay).data

/-- `containsCI` lifted to an optional field (a missing field contains nothing). -/
def optContainsCI (q : String) : Option String → Bool
  | none => false
  | some s => containsCI s q

/-- The patient predicate the spec describes: `q` occurs as a case-insensitive
substring of first_name, last_name, email or phone. -/
def patientMatchesSub (q : String) (p : PatientDoc) : Bool :=
  containsCI p.first_name q || containsCI p.last_name q ||
  optContainsCI q p.email || optContainsCI q p.phone

/-- The characters that are metacharacters in the regular-expression dialect
Mongo applies to `q`; a query avoiding all of them is read literally. -/
def regexMetachars : List Char :=
  ['.', '^', '$', '*', '+', '?', '(', ')', '[', ']', '{', '}', '|', '\\']

/-! ## Chat (src/main.py lines 177-203) -/

/-- `COMMON_QA` (src/main.py lines 181-185), in Python dict insertion order. -/
def COMMON_QA : List (String × String) :=
  [("hours", "We are open Mon-Fri 8am-6pm and Sat 9am-2pm."),
   ("location", "We are located at 123 Smile St, Suite 100."),
   ("emergency", "If you are experiencing severe pain, swelling, or trauma, please call 911 or go to the nearest ER. For urgent dental issues, we can connect you to the on-call dentist.")]

/-- The fallback reply of `chat_bot` (src/main.py line 196). -/
def CHAT_FALLBACK : String :=
  "Thanks for your message. I can help with hours, location, scheduling, and more."

/-- The scan loop of `chat_bot` (src/main.py lines 191-194): first table entry
whose key occurs in the text. -/
def scanQA : List (String × String) → String → Option String
  | [], _ => none
  | (key, ans) :: rest, text =>
      if strContains text key then some ans else scanQA rest text

/-- `POST /chat` (src/main.py lines 187-203): lower-case the message, scan
`COMMON_QA`, fall back to the generic sentence.  All table answers are
non-empty, so Python's `if not reply:` coincides with "no key matched".  The
best-effort MessageLog writes (lines 198-202) swallow every exception and do
not affect the reply, so the handler's response is just the reply. -/
def chat_bot (message : String) : String :=
  (scanQA COMMON_QA (lowerStr message)).getD CHAT_FALLBACK

/-! ## Cost estimate (src/main.py lines 205-221) -/

/-- `PROCEDURE_BASE` (src/main.py lines 209-214).  The Python values are floats
with exact integral values (120.0, 110.0, 85.0, 180.0); they are modelled as
naturals in whole dollars, and no arithmetic is ever performed on them. -/
def PROCEDURE_BASE : List (String × Nat) :=
  [("D1110", 120), ("D0150", 110), ("D0274", 85), ("D2331", 180)]

/-- Python `PROCEDURE_BASE.get(code)`. -/
def lookupBase (code : String) : Option Nat :=
  (PROCEDURE_BASE.find? (fun kv => kv.1 == code)).map (fun kv => kv.2)

/-- The body of a successful `/estimate` response. -/
structure EstimateResponse where
  procedure_code : String
  estimated_cost : Nat
deriving DecidableEq

/-- `POST /estimate` (src/main.py lines 216-221): upper-case the code, look it
up, 404 when absent, else return the normalized code and its base price. -/
def estimate_cost (procedure_code : String) : Except Nat EstimateResponse :=
  match lookupBase (upperStr procedure_code) with
  | none => .error 404
  | some base => .ok ⟨upperStr procedure_code, base⟩

/-! ## Insurance check (spec §4.3; endpoint absent from src/) -/

/-- The fixed benefits mapping of the insurance mock, in percent. -/
def BENEFITS : List (String × Nat) :=
  [("preventive", 80), ("basic", 60), ("major", 40)]

/-- Modelled from the spec: the `POST /insurance/check` handler is not present
under `src/` (the spec lists it in §4.3 and §6).  Per the spec, "eligible" is
determined solely by whether the last character of the member ID is an even
digit; the response carries the fixed benefits mapping when eligible and an
empty mapping otherwise. -/
def check_insurance (member_id : String) : Bool × List (String × Nat) :=
  match member_id.data.getLast? with
  | some c => if c.isDigit && c.toNat % 2 == 0 then (true, BENEFITS) else (false, [])
  | none => (false, [])

/-! ## Outbound voice call (src/main.py lines 226-271) -/

/-- The three required telephony environment variables (src/main.py lines
14-16); `os.getenv` yields `none` when unset, and Python truthiness also
rejects an empty value. -/
structure TwilioConfig where
  account_sid : Option String
  auth_token : Option String
  phone_number : Option String
deriving DecidableEq

/-- `OutboundCallRequest` (src/main.py lines 226-229). -/
structure OutboundCallRequest where
  to_number : String
  message : Option String
  patient_id : Option String
deriving DecidableEq

/-- A persisted MessageLog record (src/schemas.py lines 34-39, fields the voice
path writes). -/
structure MessageLogDoc where
  channel : String
  direction : String
  content : String
deriving DecidableEq

/-- What one `POST /voice/call` request produced: the HTTP result (error status
code or call SID), the calls handed to the telephony provider, and the
MessageLog records written. -/
structure VoiceOutcome where
  result : Except Nat String
  callsPlaced : List String
  logs : List MessageLogDoc

/-- `_twilio_client` (src/main.py lines 233-240): 400 when any of the three
credentials is falsy, 500 when the Twilio SDK cannot be imported
(`sdkAvailable` models the import succeeding), else a client. -/
def twilioClient (cfg : TwilioConfig) (sdkAvailable : Bool) : Except Nat Unit :=
  if !(truthy cfg.account_sid && truthy cfg.auth_token && truthy cfg.phone_number) then
    .error 400
  else if !sdkAvailable then .error 500
  else .ok ()

/-- `POST /voice/call` (src/main.py lines 242-271).  `urlAbsolute` models the
`answer_url.startswith("http")` check; `place` is the provider's
`client.calls.create`, returning a SID or failing.  The provider is contacted
only after the credential, SDK and URL checks pass; the success-path MessageLog
write swallows its own failures, so it is recorded unconditionally here. -/
def start_outbound_call (cfg : TwilioConfig) (sdkAvailable : Bool)
    (urlAbsolute : Bool) (place : String → Except String String)
    (body : OutboundCallRequest) : VoiceOutcome :=
  match twilioClient cfg sdkAvailable with
  | .error e => ⟨.error e, [], []⟩
  | .ok _ =>
      if !urlAbsolute then ⟨.error 500, [], []⟩
      else
        match place body.to_number with
        | .ok sid =>
            ⟨.ok sid, [body.to_number],
             [⟨"call", "outbound",
               "Call initiated to " ++ body.to_number ++ " - SID " ++ sid⟩]⟩
        | .error _ => ⟨.error 500, [body.to_number], []⟩

/-! ## Store lemmas -/

/-- A Mongo `update_one` that matches nothing leaves the collection unchanged
and reports `matched_count == 0`. -/
theorem updateFirst_of_find?_none (f : AppDoc → AppDoc) (id : Nat)
    (l : List AppDoc) (h : findApp l id = none) :
    updateFirst f id l = (l, false) := by
  induction l with
  | nil => rfl
  | cons a rest ih =>
      unfold findApp at h ih
      rw [List.find?_cons] at h
      by_cases ha : (a.id == id) = true
      · simp [ha] at h
      · simp only [ha] at h
        simp [updateFirst, ha, ih h]

/-- A Mongo `update_one` that matches the document `a` reports
`matched_count == 1`, and an id-preserving rewrite leaves `f a` as the first
document found under that id afterwards. -/
theorem updateFirst_of_find?_some (f : AppDoc → AppDoc) (id : Nat)
    (l : List AppDoc) (a : AppDoc) (hf : ∀ x, (f x).id = x.id)
    (h : findApp l id = some a) :
    (updateFirst f id l).2 = true ∧
    findApp (updateFirst f id l).1 id = some (f a) := by
  induction l with
  | nil => simp [findApp] at h
  | cons b rest ih =>
      unfold findApp at h ih ⊢
      rw [List.find?_cons] at h
      by_cases hb : (b.id == id) = true
      · simp only [hb] at h
        injection h with h
        subst h
        refine ⟨by simp [updateFirst, hb], ?_⟩
        have : ((f b).id == id) = true := by
          rw [hf b]; exact hb
        simp [updateFirst, hb, this]
      · simp only [hb] at h
        obtain ⟨h1, h2⟩ := ih h
        exact ⟨by simp [updateFirst, hb, h1],
               by simp [updateFirst, hb, h2, List.find?_cons]⟩

/-- The code's overlap filter, read back as the claim states it: same provider,
status in {scheduled, rescheduled}, and
`payload.start_time < existing.end_time ∧ payload.end_time > existing.start_time`. -/
theorem overlapFilter_eq_true_iff (payload : Appointment) (a : AppDoc) :
    overlapFilter payload a = true ↔
      (a.provider = payload.provider ∧
       (a.status = "scheduled" ∨ a.status = "rescheduled") ∧
       payload.start_time < a.end_time ∧ payload.end_time > a.start_time) := by
  simp only [overlapFilter, Bool.and_eq_true, Bool.or_eq_true, beq_iff_eq,
    decide_eq_true_eq, gt_iff_lt, String.lt_iff_toList_lt, String.toList]
  tauto

/-! ## Claim theorems -/

/-- C1: creating an appointment fails with 409 and persists nothing when some
stored appointment has the payload's provider, status in
{scheduled, rescheduled} and a half-open-overlapping interval; with no such
stored appointment the payload is persisted as-is under a fresh generated id
and the persisted record is returned. -/
theorem create_appointment_conflict_spec (db : DB) (payload : Appointment) :
    ((∃ a ∈ db.appointments, a.provider = payload.provider ∧
        (a.status = "scheduled" ∨ a.status = "rescheduled") ∧
        payload.start_time < a.end_time ∧ payload.end_time > a.start_time) →
      create_appointment db payload = (.error 409, db)) ∧
    ((∀ a ∈ db.appointments, ¬(a.provider = payload.provider ∧
        (a.status = "scheduled" ∨ a.status = "rescheduled") ∧
        payload.start_time < a.end_time ∧ payload.end_time > a.start_time)) →
      create_appointment db payload =
        (.ok (insertDoc payload db.nextId),
         ⟨db.appointments ++ [insertDoc payload db.nextId], db.nextId + 1⟩)) := by
  constructor
  · rintro ⟨a, ha, hp⟩
    have hs : (db.appointments.find? (overlapFilter payload)).isSome := by
      rw [List.find?_isSome]
      exact ⟨a, ha, (overlapFilter_eq_true_iff payload a).2 hp⟩
    obtain ⟨b, hb⟩ := Option.isSome_iff_exists.1 hs
    unfold create_appointment
    rw [hb]
  · intro h
    have hn : db.appointments.find? (overlapFilter payload) = none := by
      rw [List.find?_eq_none]
      intro a ha
      simpa [overlapFilter_eq_true_iff] using h a ha
    unfold create_appointment
    rw [hn]

/-- A stored appointment used by the witnesses. -/
def sampleStored : AppDoc :=
  ⟨0, "p1", "cleaning", "2026-01-05T09:00", "2026-01-05T10:00",
   some "Dr. A", "scheduled", none⟩

/-- A one-appointment store used by the witnesses. -/
def sampleDB : DB := ⟨[sampleStored], 1⟩

/-- A payload overlapping `sampleStored` for the same provider. -/
def samplePayload : Appointment :=
  ⟨"p2", "exam", "2026-01-05T09:30", "2026-01-05T10:30", some "Dr. A", "scheduled"⟩

/-- Witness for C1: an overlapping same-provider request against a concrete
store is rejected with 409 and the store is unchanged. -/
theorem create_appointment_conflict_witness :
    create_appointment sampleDB samplePayload = (.error 409, sampleDB) :=
  (create_appointment_conflict_spec sampleDB samplePayload).1
    (by simp only [gt_iff_lt, String.lt_iff_toList_lt, String.toList]; decide)

/-- C2: when the payload has no provider, only stored no-provider appointments
are consulted: if no stored no-provider appointment with status in
{scheduled, rescheduled} overlaps, creation succeeds (overlapping appointments
with a non-null provider never block it); if such a no-provider appointment
exists, creation fails with 409 and persists nothing. -/
theorem create_appointment_no_provider_spec (db : DB) (payload : Appointment)
    (hp : payload.provider = none) :
    ((∀ a ∈ db.appointments, a.provider = none →
        ¬((a.status = "scheduled" ∨ a.status = "rescheduled") ∧
          payload.start_time < a.end_time ∧ payload.end_time > a.start_time)) →
      create_appointment db payload =
        (.ok (insertDoc payload db.nextId),
         ⟨db.appointments ++ [insertDoc payload db.nextId], db.nextId + 1⟩)) ∧
    ((∃ a ∈ db.appointments, a.provider = none ∧
        (a.status = "scheduled" ∨ a.status = "rescheduled") ∧
        payload.start_time < a.end_time ∧ payload.end_time > a.start_time) →
      create_appointment db payload = (.error 409, db)) := by
  constructor
  · intro h
    refine (create_appointment_conflict_spec db payload).2 ?_
    rintro a ha ⟨hprov, hrest⟩
    have hnone : a.provider = none := by rw [hprov, hp]
    exact h a ha hnone hrest
  · rintro ⟨a, ha, hnone, hrest⟩
    refine (create_appointment_conflict_spec db payload).1 ?_
    exact ⟨a, ha, by rw [hnone, hp], hrest⟩

/-- A payload with no provider, overlapping `sampleStored` in time. -/
def samplePayloadNoProvider : Appointment :=
  ⟨"p3", "exam", "2026-01-05T09:30", "2026-01-05T10:30", none, "scheduled"⟩

/-- Witness for C2: against a store holding only an overlapping appointment
with provider "Dr. A", a no-provider request succeeds and is persisted. -/
theorem create_appointment_no_provider_witness :
    create_appointment sampleDB samplePayloadNoProvider =
      (.ok (insertDoc samplePayloadNoProvider 1),
       ⟨[sampleStored, insertDoc samplePayloadNoProvider 1], 2⟩) :=
  (create_appointment_no_provider_spec sampleDB samplePayloadNoProvider rfl).1
    (by simp only [gt_iff_lt, String.lt_iff_toList_lt, String.toList]; decide)

/-- C3: a partial update with no truthy field fails with 400 and leaves the
store untouched; with a truthy field but an unknown identifier it fails with
404 and leaves the store untouched; otherwise the truthy subset of fields is
written, `updated_at` is stamped with the server time, and the full updated
record is both returned and stored. -/
theorem update_appointment_spec (db : DB) (id : Nat)
    (status start_time end_time : Option String) (now : Nat) :
    (truthy status = false ∧ truthy start_time = false ∧ truthy end_time = false →
      update_appointment db id status start_time end_time now = (.error 400, db)) ∧
    ((truthy status || truthy start_time || truthy end_time) = true →
      findApp db.appointments id = none →
      update_appointment db id status start_time end_time now = (.error 404, db)) ∧
    (∀ a, (truthy status || truthy start_time || truthy end_time) = true →
      findApp db.appointments id = some a →
      update_appointment db id status start_time end_time now =
        (.ok (some (setFields status start_time end_time now a)),
         ⟨(updateFirst (setFields status start_time end_time now) id db.appointments).1,
          db.nextId⟩) ∧
      findApp (updateFirst (setFields status start_time end_time now) id
          db.appointments).1 id =
        some (setFields status start_time end_time now a) ∧
      (setFields status start_time end_time now a).updated_at = some now ∧
      (setFields status start_time end_time now a).status =
        (if truthy status then status.getD a.status else a.status) ∧
      (setFields status start_time end_time now a).start_time =
        (if truthy start_time then start_time.getD a.start_time else a.start_time) ∧
      (setFields status start_time end_time now a).end_time =
        (if truthy end_time then end_time.getD a.end_time else a.end_time) ∧
      (setFields status start_time end_time now a).id = a.id ∧
      (setFields status start_time end_time now a).patient_id = a.patient_id ∧
      (setFields status start_time end_time now a).reason = a.reason ∧
      (setFields status start_time end_time now a).provider = a.provider) := by
  refine ⟨?_, ?_, ?_⟩
  · rintro ⟨h1, h2, h3⟩
    unfold update_appointment
    rw [h1, h2, h3]
    rfl
  · intro ht hn
    have hu := updateFirst_of_find?_none (setFields status start_time end_time now) id
      db.appointments hn
    unfold update_appointment
    rw [ht, hu]
    rfl
  · intro a ht hf
    have hu := updateFirst_of_find?_some (setFields status start_time end_time now) id
      db.appointments a (fun _ => rfl) hf
    refine ⟨?_, hu.2, rfl, rfl, rfl, rfl, rfl, rfl, rfl, rfl⟩
    unfold update_appointment
    rw [ht]
    simp only [hu.1, if_true, hu.2]

/-- Witness for C3: updating the stored appointment's status writes the status,
stamps `updated_at` and returns the stored updated record. -/
theorem update_appointment_witness :
    update_appointment sampleDB 0 (some "completed") none none 7 =
      (.ok (some { sampleStored with status := "completed", updated_at := some 7 }),
       ⟨[{ sampleStored with status := "completed", updated_at := some 7 }], 1⟩) :=
  ((update_appointment_spec sampleDB 0 (some "completed") none none 7).2.2
    sampleStored (by decide) rfl).1

/-- C4: cancelling an unknown identifier fails with 404 and leaves the store
untouched; cancelling a stored appointment succeeds, sets its status to
`cancelled` and stamps `updated_at`, and cancelling it a second time succeeds
again, stamping `updated_at` with the second time. -/
theorem cancel_appointment_spec (db : DB) (id : Nat) (t1 t2 : Nat) :
    (findApp db.appointments id = none →
      cancel_appointment db id t1 = (.error 404, db)) ∧
    (∀ a, findApp db.appointments id = some a →
      cancel_appointment db id t1 =
        (.ok true, ⟨(updateFirst (cancelSet t1) id db.appointments).1, db.nextId⟩) ∧
      findApp (updateFirst (cancelSet t1) id db.appointments).1 id =
        some { a with status := "cancelled", updated_at := some t1 } ∧
      cancel_appointment ⟨(updateFirst (cancelSet t1) id db.appointments).1, db.nextId⟩
          id t2 =
        (.ok true,
         ⟨(updateFirst (cancelSet t2) id
             (updateFirst (cancelSet t1) id db.appointments).1).1, db.nextId⟩) ∧
      findApp (updateFirst (cancelSet t2) id
          (updateFirst (cancelSet t1) id db.appointments).1).1 id =
        some { a with status := "cancelled", updated_at := some t2 }) := by
  constructor
  · intro hn
    have hu := updateFirst_of_find?_none (cancelSet t1) id db.appointments hn
    unfold cancel_appointment
    rw [hu]
    rfl
  · intro a hf
    have hu1 := updateFirst_of_find?_some (cancelSet t1) id db.appointments a
      (fun _ => rfl) hf
    have hu2 := updateFirst_of_find?_some (cancelSet t2) id
      (updateFirst (cancelSet t1) id db.appointments).1 (cancelSet t1 a)
      (fun _ => rfl) hu1.2
    refine ⟨?_, hu1.2, ?_, hu2.2⟩
    · unfold cancel_appointment
      simp only [hu1.1, if_true]
    · unfold cancel_appointment
      simp only [hu2.1, if_true]

/-- Witness for C4: cancelling the stored appointment twice succeeds both
times, and each cancellation stamps `updated_at` with its own time. -/
theorem cancel_appointment_witness :
    cancel_appointment sampleDB 0 3 =
      (.ok true, ⟨[{ sampleStored with status := "cancelled", updated_at := some 3 }], 1⟩) ∧
    cancel_appointment
        ⟨[{ sampleStored with status := "cancelled", updated_at := some 3 }], 1⟩ 0 4 =
      (.ok true, ⟨[{ sampleStored with status := "cancelled", updated_at := some 4 }], 1⟩) := by
  obtain ⟨h1, -, h2, -⟩ := (cancel_appointment_spec sampleDB 0 3 4).2 sampleStored rfl
  exact ⟨h1, h2⟩

/-- C10: a partial update whose supplied values are all empty strings is
treated exactly like an update with no fields: it fails with 400 with the
store untouched (no record lookup can be observed), so an empty string is
never written into `status`, `start_time` or `end_time`. -/
theorem update_appointment_empty_strings (db : DB) (id : Nat) (now : Nat)
    (status start_time end_time : Option String)
    (hs : status = none ∨ status = some "")
    (h1 : start_time = none ∨ start_time = some "")
    (h2 : end_time = none ∨ end_time = some "") :
    update_appointment db id status start_time end_time now = (.error 400, db) := by
  have ts : truthy status = false := by
    rcases hs with h | h <;> simp [h, truthy]
  have t1 : truthy start_time = false := by
    rcases h1 with h | h <;> simp [h, truthy]
  have t2 : truthy end_time = false := by
    rcases h2 with h | h <;> simp [h, truthy]
  unfold update_appointment
  rw [ts, t1, t2]
  rfl

/-- Witness for C10: an update carrying only empty strings fails with 400 and
changes nothing, although the identifier does exist in the store. -/
theorem update_appointment_empty_strings_witness :
    update_appointment sampleDB 0 (some "") none (some "") 9 = (.error 400, sampleDB) :=
  update_appointment_empty_strings sampleDB 0 9 (some "") none (some "")
    (Or.inr rfl) (Or.inl rfl) (Or.inr rfl)

/-- C5: the chat reply is computed from the lower-cased message by scanning the
table in its fixed order hours, location, emergency: the answer of the first
keyword occurring as a substring is returned, with the generic fallback when no
keyword occurs.  Matching is on the lower-cased message only, hence
case-insensitive, and a message containing two keywords gets the answer of the
earlier keyword in table order. -/
theorem chat_bot_spec (msg : String) :
    (strContains (lowerStr msg) "hours" = true →
      chat_bot msg = "We are open Mon-Fri 8am-6pm and Sat 9am-2pm.") ∧
    (strContains (lowerStr msg) "hours" = false →
      strContains (lowerStr msg) "location" = true →
      chat_bot msg = "We are located at 123 Smile St, Suite 100.") ∧
    (strContains (lowerStr msg) "hours" = false →
      strContains (lowerStr msg) "location" = false →
      strContains (lowerStr msg) "emergency" = true →
      chat_bot msg = "If you are experiencing severe pain, swelling, or trauma, please call 911 or go to the nearest ER. For urgent dental issues, we can connect you to the on-call dentist.") ∧
    (strContains (lowerStr msg) "hours" = false →
      strContains (lowerStr msg) "location" = false →
      strContains (lowerStr msg) "emergency" = false →
      chat_bot msg = CHAT_FALLBACK) := by
  refine ⟨?_, ?_, ?_, ?_⟩
  · intro h1
    simp [chat_bot, COMMON_QA, scanQA, h1]
  · intro h1 h2
    simp [chat_bot, COMMON_QA, scanQA, h1, h2]
  · intro h1 h2 h3
    simp [chat_bot, COMMON_QA, scanQA, h1, h2, h3]
  · intro h1 h2 h3
    simp [chat_bot, COMMON_QA, scanQA, h1, h2, h3]

/-- Witness for C5: an upper-case HOURS message gets the hours answer, a
message with two keywords gets the answer of the earlier table entry (hours
before location), and a keyword-free message gets the fallback. -/
theorem chat_bot_witness :
    chat_bot "What are your HOURS?" = "We are open Mon-Fri 8am-6pm and Sat 9am-2pm." ∧
    chat_bot "the location of your hours sign" =
      "We are open Mon-Fri 8am-6pm and Sat 9am-2pm." ∧
    chat_bot "hello there" = CHAT_FALLBACK :=
  ⟨(chat_bot_spec "What are your HOURS?").1 (by decide),
   (chat_bot_spec "the location of your hours sign").1 (by decide),
   (chat_bot_spec "hello there").2.2.2 (by decide) (by decide) (by decide)⟩

/-- C6: the estimate endpoint upper-cases the procedure code before the table
lookup, so two codes with the same upper-casing get the same response; each
table code returns its base price together with the normalized code, and a code
whose upper-casing is not in the table yields 404. -/
theorem estimate_cost_spec (code : String) :
    (upperStr code = "D1110" → estimate_cost code = .ok ⟨"D1110", 120⟩) ∧
    (upperStr code = "D0150" → estimate_cost code = .ok ⟨"D0150", 110⟩) ∧
    (upperStr code = "D0274" → estimate_cost code = .ok ⟨"D0274", 85⟩) ∧
    (upperStr code = "D2331" → estimate_cost code = .ok ⟨"D2331", 180⟩) ∧
    (upperStr code ≠ "D1110" → upperStr code ≠ "D0150" → upperStr code ≠ "D0274" →
      upperStr code ≠ "D2331" → estimate_cost code = .error 404) ∧
    (∀ other : String, upperStr code = upperStr other →
      estimate_cost code = estimate_cost other) := by
  refine ⟨?_, ?_, ?_, ?_, ?_, ?_⟩
  · intro h
    simp [estimate_cost, lookupBase, PROCEDURE_BASE, h]
  · intro h
    simp [estimate_cost, lookupBase, PROCEDURE_BASE, h]
  · intro h
    simp [estimate_cost, lookupBase, PROCEDURE_BASE, h]
  · intro h
    simp [estimate_cost, lookupBase, PROCEDURE_BASE, h]
  · intro h1 h2 h3 h4
    simp [estimate_cost, lookupBase, PROCEDURE_BASE,
      Ne.symm h1, Ne.symm h2, Ne.symm h3, Ne.symm h4]
  · intro other h
    unfold estimate_cost
    rw [h]

/-- Witness for C6: `"d1110"` resolves like `"D1110"` to the 120 base price,
and an unknown code is rejected with 404. -/
theorem estimate_cost_witness :
    estimate_cost "d1110" = .ok ⟨"D1110", 120⟩ ∧
    estimate_cost "d1110" = estimate_cost "D1110" ∧
    estimate_cost "X999" = .error 404 :=
  ⟨(estimate_cost_spec "d1110").1 (by decide),
   (estimate_cost_spec "d1110").2.2.2.2.2 "D1110" (by decide),
   (estimate_cost_spec "X999").2.2.2.2.1 (by decide) (by decide) (by decide) (by decide)⟩

/-- A character is a digit with an even code point exactly when it is one of
the five even digit characters. -/
theorem evenDigit_iff (c : Char) :
    (c.isDigit && c.toNat % 2 == 0) = true ↔ c ∈ ['0', '2', '4', '6', '8'] := by
  constructor
  · intro h
    rw [Bool.and_eq_true] at h
    obtain ⟨hd, he⟩ := h
    simp only [Char.isDigit, Bool.and_eq_true, decide_eq_true_eq] at hd
    have h1 : 48 ≤ c.toNat := UInt32.le_toNat_of_le (by norm_num) hd.1
    have h2 : c.toNat ≤ 57 := UInt32.toNat_le_of_le (by norm_num) hd.2
    have he' : c.toNat % 2 = 0 := by simpa using he
    have hcases : c.toNat = 48 ∨ c.toNat = 50 ∨ c.toNat = 52 ∨ c.toNat = 54 ∨
        c.toNat = 56 := by omega
    simp only [List.mem_cons, List.not_mem_nil, or_false]
    rcases hcases with h | h | h | h | h
    · exact Or.inl (Char.ext (UInt32.toNat.inj h))
    · exact Or.inr (Or.inl (Char.ext (UInt32.toNat.inj h)))
    · exact Or.inr (Or.inr (Or.inl (Char.ext (UInt32.toNat.inj h))))
    · exact Or.inr (Or.inr (Or.inr (Or.inl (Char.ext (UInt32.toNat.inj h)))))
    · exact Or.inr (Or.inr (Or.inr (Or.inr (Char.ext (UInt32.toNat.inj h)))))
  · intro h
    fin_cases h <;> decide

/-- C7 (spec-modelled): insurance eligibility is decided solely by the last
character of the member ID: an even digit yields eligible with the fixed
benefits mapping preventive 80, basic 60, major 40; an odd digit, a non-digit
last character, or an empty ID yields not eligible with an empty mapping. -/
theorem check_insurance_spec (mid : String) :
    ((∃ c, mid.data.getLast? = some c ∧ c ∈ ['0', '2', '4', '6', '8']) →
      check_insurance mid =
        (true, [("preventive", 80), ("basic", 60), ("major", 40)])) ∧
    ((∀ c, mid.data.getLast? = some c → c ∉ ['0', '2', '4', '6', '8']) →
      check_insurance mid = (false, [])) := by
  constructor
  · rintro ⟨c, hl, hc⟩
    unfold check_insurance
    rw [hl]
    have ht := (evenDigit_iff c).2 hc
    simp [ht, BENEFITS]
  · intro h
    unfold check_insurance
    cases hl : mid.data.getLast? with
    | none => rfl
    | some c =>
        have hb : (c.isDigit && c.toNat % 2 == 0) = false :=
          Bool.eq_false_iff.2 (fun hb => h c hl ((evenDigit_iff c).1 hb))
        simp [hb]

/-- Witness for C7: a member ID ending in the even digit 2 is eligible with the
fixed benefits, one ending in the odd digit 3 and one ending in a letter are
not eligible and get an empty mapping. -/
theorem check_insurance_witness :
    check_insurance "A12" = (true, [("preventive", 80), ("basic", 60), ("major", 40)]) ∧
    check_insurance "A13" = (false, []) ∧
    check_insurance "AB" = (false, []) :=
  ⟨(check_insurance_spec "A12").1 ⟨'2', rfl, by decide⟩,
   (check_insurance_spec "A13").2 (by
      intro c hc
      have h3 : c = '3' := by
        have : ("A13".data.getLast? : Option Char) = some '3' := rfl
        rw [this] at hc
        exact (Option.some.inj hc).symm
      rw [h3]
      decide),
   (check_insurance_spec "AB").2 (by
      intro c hc
      have hB : c = 'B' := by
        have : ("AB".data.getLast? : Option Char) = some 'B' := rfl
        rw [this] at hc
        exact (Option.some.inj hc).symm
      rw [hB]
      decide)⟩

/-- C8: with any of the three telephony credentials unset or empty, the call
endpoint fails with 400, no call is handed to the telephony provider, and no
MessageLog record is written. -/
theorem start_outbound_call_missing_config (cfg : TwilioConfig)
    (sdkAvailable urlAbsolute : Bool) (place : String → Except String String)
    (body : OutboundCallRequest)
    (h : truthy cfg.account_sid = false ∨ truthy cfg.auth_token = false ∨
      truthy cfg.phone_number = false) :
    (start_outbound_call cfg sdkAvailable urlAbsolute place body).result =
      .error 400 ∧
    (start_outbound_call cfg sdkAvailable urlAbsolute place body).callsPlaced = [] ∧
    (start_outbound_call cfg sdkAvailable urlAbsolute place body).logs = [] := by
  have hc : twilioClient cfg sdkAvailable = .error 400 := by
    unfold twilioClient
    rcases h with h | h | h <;> simp [h]
  unfold start_outbound_call
  rw [hc]
  exact ⟨rfl, rfl, rfl⟩

/-- Witness for C8: with the account identifier unset (token and sender number
present), a concrete call request is rejected with 400 and neither a provider
call nor a log record is produced. -/
theorem start_outbound_call_missing_config_witness :
    (start_outbound_call ⟨none, some "tok", some "+15550001111"⟩ true true
      (fun _ => .ok "CA123") ⟨"+15557654321", none, none⟩).result = .error 400 ∧
    (start_outbound_call ⟨none, some "tok", some "+15550001111"⟩ true true
      (fun _ => .ok "CA123") ⟨"+15557654321", none, none⟩).callsPlaced = [] ∧
    (start_outbound_call ⟨none, some "tok", some "+15550001111"⟩ true true
      (fun _ => .ok "CA123") ⟨"+15557654321", none, none⟩).logs = [] :=
  start_outbound_call_missing_config ⟨none, some "tok", some "+15550001111"⟩ true true
    (fun _ => .ok "CA123") ⟨"+15557654321", none, none⟩ (Or.inl rfl)

/-! ## Patient search: regex versus substring -/

/-- On a pattern free of the `.` wildcard, anchored regex matching is plain
prefix matching. -/
theorem reHere_eq_listPref (pat : List Char) (hp : '.' ∉ pat) :
    ∀ s : List Char, reHere pat s = listPref pat s := by
  induction pat with
  | nil => intro s; cases s <;> rfl
  | cons p ps ih =>
      intro s
      cases s with
      | nil => rfl
      | cons c cs =>
          have hpd : (p == '.') = false :=
            beq_eq_false_iff_ne.2 (fun e => hp (by simp [e]))
          have hps : '.' ∉ ps := fun m => hp (List.mem_cons_of_mem _ m)
          simp [reHere, listPref, hpd, ih hps]

/-- On a pattern free of the `.` wildcard, unanchored regex search is plain
substring containment. -/
theorem reFind_eq_listSub (pat : List Char) (hp : '.' ∉ pat) :
    ∀ s : List Char, reFind pat s = listSub pat s := by
  intro s
  induction s with
  | nil => simp [reFind, listSub, reHere_eq_listPref pat hp]
  | cons c cs ih => simp [reFind, listSub, reHere_eq_listPref pat hp, ih]

/-- Lower-casing never produces a `.` from another character. -/
theorem toLower_ne_dot (c : Char) (h : c ≠ '.') : Char.toLower c ≠ '.' := by
  unfold Char.toLower
  simp only []
  split
  · intro hc
    rename_i hcond
    have hv : (Char.ofNat (c.toNat + 32)).toNat = c.toNat + 32 := by
      rw [Char.ofNat, dif_pos (Or.inl (by omega))]
      rfl
    rw [hc] at hv
    have h46 : (46 : Nat) = c.toNat + 32 := hv
    omega
  · exact h

/-- Lower-casing a dot-free string keeps it dot-free. -/
theorem lowerStr_no_dot (q : String) (h : '.' ∉ q.data) :
    '.' ∉ (lowerStr q).data := by
  intro hm
  have hm' : '.' ∈ q.data.map Char.toLower := hm
  obtain ⟨c, hc, he⟩ := List.mem_map.1 hm'
  exact toLower_ne_dot c (fun e => h (e ▸ hc)) he

/-- For a query containing no regex metacharacter, the regex condition the code
sends to the store coincides with the case-insensitive substring condition the
spec describes. -/
theorem mongoRegexCI_eq_containsCI (q : String)
    (h : ∀ c ∈ q.data, c ∉ regexMetachars) (s : String) :
    mongoRegexCI q s = containsCI s q := by
  unfold mongoRegexCI containsCI
  apply reFind_eq_listSub
  intro hm
  exact h '.' (by
    by_contra hnm
    exact lowerStr_no_dot q hnm hm) (by decide)

/-- `mongoRegexCI_eq_containsCI` lifted to an optional field. -/
theorem optRegexCI_eq_optContainsCI (q : String)
    (h : ∀ c ∈ q.data, c ∉ regexMetachars) (o : Option String) :
    optRegexCI q o = optContainsCI q o := by
  cases o with
  | none => rfl
  | some s => exact mongoRegexCI_eq_containsCI q h s

/-- For a metacharacter-free query the code's patient filter equals the spec's
substring filter. -/
theorem patientMatches_eq_sub (q : String)
    (h : ∀ c ∈ q.data, c ∉ regexMetachars) (p : PatientDoc) :
    patientMatches q p = patientMatchesSub q p := by
  unfold patientMatches patientMatchesSub
  rw [mongoRegexCI_eq_containsCI q h p.first_name,
    mongoRegexCI_eq_containsCI q h p.last_name,
    optRegexCI_eq_optContainsCI q h p.email,
    optRegexCI_eq_optContainsCI q h p.phone]

/-- A stored patient whose first name is "abc" and last name "zz". -/
def patientAbc : PatientDoc := ⟨0, "abc", "zz", none, none, none, none, none⟩

/-- Counterexample to C9 as stated: for the query "a.c" — which occurs as a
substring of no field of `patientAbc` — the search nevertheless returns the
patient, because the code hands the query to the store as a regular expression
in which `.` matches any character.  So "returned exactly when `q` occurs as a
case-insensitive substring of a field" fails for metacharacter queries. -/
theorem list_patients_substring_counterexample :
    list_patients [patientAbc] (some "a.c") 50 = [patientAbc] ∧
    containsCI patientAbc.first_name "a.c" = false ∧
    containsCI patientAbc.last_name "a.c" = false ∧
    patientAbc.email = none ∧
    patientAbc.phone = none := by
  refine ⟨?_, ?_, ?_, rfl, rfl⟩ <;> decide

/-- C9 amended: for a non-empty query containing no regular-expression
metacharacter, a stored patient is returned exactly when the query occurs as a
case-insensitive substring of first_name, last_name, email or phone, capped at
`limit`; with no query string all patients are returned up to `limit` (the
handler default being 50).  For queries containing metacharacters the filter is
case-insensitive regex matching instead (see the counterexample). -/
theorem list_patients_amended_spec (patients : List PatientDoc) (q : String)
    (limit : Nat) (hq : q ≠ "") (h : ∀ c ∈ q.data, c ∉ regexMetachars) :
    list_patients patients (some q) limit =
      (patients.filter (patientMatchesSub q)).take limit ∧
    (∀ lim : Nat, list_patients patients none lim = patients.take lim) := by
  constructor
  · have ht : truthy (some q) = true := by simp [truthy, hq]
    unfold list_patients
    rw [ht]
    have hf : patientMatches ((some q).getD "") = patientMatchesSub q :=
      funext (patientMatches_eq_sub q h)
    rw [if_pos rfl, hf]
  · intro lim
    rfl

/-- A stored patient matching the witness query "ann". -/
def patientAnn : PatientDoc :=
  ⟨1, "Anna", "Smith", some "anna@example.com", some "+15550002222", none, none, none⟩

/-- A stored patient matching no witness query. -/
def patientBob : PatientDoc :=
  ⟨2, "Bob", "Stone", none, none, none, none, none⟩

/-- Witness for the amended C9: the metacharacter-free query "ann" returns
exactly the patient whose first name contains it case-insensitively. -/
theorem list_patients_amended_witness :
    list_patients [patientAnn, patientBob] (some "ann") 50 = [patientAnn] :=
  ((list_patients_amended_spec [patientAnn, patientBob] "ann" 50
      (by decide) (by decide)).1).trans (by decide)

end Dental
